import Mathlib

/-!
stegoWiper c-icap service: shallow embedding of `srv_stego_wiper.c`

The service is a set of callbacks driven by the c-icap host.  Each callback is
embedded as a pure function of the host request state (`ci_request_t`) and of the
outcomes of the external calls it makes (scratch-store library, `system`, `malloc`).
Every external call is written to a call trace in program order, so that properties
such as "the store is released exactly once" become properties of the trace.

Conventions
* `ci_debug_printf` calls and the reads made only to feed them are left out.
* C `int`/`long` values are `Int`; the code performs no arithmetic on them apart from
  comparisons, so no wrap-around can occur.
* A NULL pointer is `none`.  A dereference of NULL made by the service code itself
  (`stegowiper_io`) makes the embedded callback return `none`.
* Library calls are total: their result is an explicit argument of the callback.
-/

namespace StegoWiper

/-! ## Host constants and types (c-icap headers) -/

/-- Modelled from the spec: host constant `CI_OK` of the c-icap headers (value 1). -/
def CI_OK : Int := 1

/-- Modelled from the spec: host constant `CI_ERROR`, the processing-failure signal (value -1). -/
def CI_ERROR : Int := -1

/-- Modelled from the spec: host constant `CI_EOF`, the end-of-output signal (value -2). -/
def CI_EOF : Int := -2

/-- Modelled from the spec: host constant `CI_MOD_DONE`, returned at end of input (value 1). -/
def CI_MOD_DONE : Int := 1

/-- Modelled from the spec: host constant `CI_MOD_CONTINUE`, "keep sending the body" (value 100). -/
def CI_MOD_CONTINUE : Int := 100

/-- Modelled from the spec: host constant `CI_MOD_ALLOW204`, "no modification" (value 204). -/
def CI_MOD_ALLOW204 : Int := 204

/-- Modelled from the spec: host constant `ICAP_OPTIONS`, the capability-query direction. -/
def ICAP_OPTIONS : Int := 1

/-- Modelled from the spec: host constant `ICAP_REQMOD`, the request-modify direction. -/
def ICAP_REQMOD : Int := 2

/-- Modelled from the spec: host constant `ICAP_RESPMOD`, the response-modify direction. -/
def ICAP_RESPMOD : Int := 4

/-- Modelled from the spec: the scratch-store handle `ci_simple_file_t`.  The service reads
the fields `filename` and `endpos`; `addr` is the address of the handle. -/
structure ci_simple_file_t where
  addr : Nat
  filename : String
  endpos : Int
deriving DecidableEq, Repr

/-- The per-request data of the service (`struct stegowiper_req_data`). -/
structure stegowiper_req_data where
  file : Option ci_simple_file_t
  eof : Int
deriving DecidableEq, Repr

/-- Modelled from the spec: the part of the host request `ci_request_t` that the service
observes or changes: direction, body flag, end-of-input flag, data lock, the header
lines of the encapsulated HTTP request and response (`none` when the entity is absent)
and the service data pointer. -/
structure ci_request_t where
  type : Int
  hasbody : Bool
  eof_received : Int
  data_locked : Bool
  http_request_headers : Option (List String)
  http_response_headers : Option (List String)
  service_data : Option stegowiper_req_data
deriving DecidableEq, Repr

/-- An external call made by the service, with its arguments and (where it has one) result. -/
inductive Call where
  | ci_simple_file_named_new (dir : String) (max_size : Int) (result : Option ci_simple_file_t)
  | ci_simple_file_write (file : Option ci_simple_file_t) (buf : List Nat) (len : Int)
      (iseof : Int) (result : Int)
  | ci_simple_file_read (file : ci_simple_file_t) (len : Int) (result : Int)
  | ci_simple_file_release (file : ci_simple_file_t)
  | ci_simple_file_open (path : String) (result : Option ci_simple_file_t)
  | system (command : String) (result : Int)
  | ci_req_unlock_data
  | ci_http_response_remove_header (name : String)
  | ci_http_response_add_header (line : String)
deriving DecidableEq, Repr

/-- Outcome of one `ci_simple_file_write`: the returned count (negative on failure) and
the value of the `endpos` field of the store after the call. -/
structure WriteOutcome where
  ret : Int
  endpos : Int
deriving DecidableEq, Repr

/-! ## Host and libc functions used by the service -/

/-- Modelled from the spec: libc `strncmp` on NUL-terminated strings, as the sign-carrying
difference of the first differing characters among the first `n`. -/
def strncmp : List Char → List Char → Nat → Int
  | _, _, 0 => 0
  | [], [], _ + 1 => 0
  | [], b :: _, _ + 1 => - (b.toNat : Int)
  | a :: _, [], _ + 1 => (a.toNat : Int)
  | a :: as, b :: bs, n + 1 =>
    if a = b then strncmp as bs n else (a.toNat : Int) - (b.toNat : Int)

/-- Lower-case form of a header name, for the case-insensitive header search. -/
def lowerName (s : List Char) : List Char := s.map Char.toLower

/-- Modelled from the spec: a header line carries the header `name` when it starts with the
name (compared case-insensitively) followed by a colon. -/
def header_has_name (name : String) (line : String) : Bool :=
  decide (lowerName (line.toList.take name.length) = lowerName name.toList) &&
    decide ((line.toList.drop name.length).head? = some ':')

/-- Modelled from the spec: the value of a header line: what follows the first colon, leading
blanks skipped. -/
def header_line_value (line : String) : String :=
  String.mk (((line.toList.dropWhile (fun c => c != ':')).drop 1).dropWhile (fun c => c == ' '))

/-- Modelled from the spec: host `ci_headers_value`: value of the first header with that name,
NULL when there is none. -/
def ci_headers_value (h : Option (List String)) (name : String) : Option String :=
  match h with
  | none => none
  | some lines => (lines.find? (header_has_name name)).map header_line_value

/-- Modelled from the spec: host `ci_headers_remove`: drops the first header with that name. -/
def ci_headers_remove (lines : List String) (name : String) : List String :=
  lines.eraseP (header_has_name name)

/-- Modelled from the spec: host `ci_headers_add`: appends a literal header line. -/
def ci_headers_add (lines : List String) (line : String) : List String :=
  lines ++ [line]

/-- Modelled from the spec: host `ci_http_response_remove_header`: acts on the encapsulated
HTTP response headers and does nothing when the exchange has none. -/
def ci_http_response_remove_header (req : ci_request_t) (name : String) : ci_request_t :=
  { req with http_response_headers :=
      req.http_response_headers.map (fun lines => ci_headers_remove lines name) }

/-- Modelled from the spec: host `ci_http_response_add_header`: acts on the encapsulated HTTP
response headers and does nothing when the exchange has none. -/
def ci_http_response_add_header (req : ci_request_t) (line : String) : ci_request_t :=
  { req with http_response_headers :=
      req.http_response_headers.map (fun lines => ci_headers_add lines line) }

/-- Modelled from the spec: host `ci_req_unlock_data`: lets the host start sending output. -/
def ci_req_unlock_data (req : ci_request_t) : ci_request_t :=
  { req with data_locked := false }

/-- The field update made by the store library on a successful or failed write:
only `endpos` of the handle may change. -/
def file_after_write (file : Option ci_simple_file_t) (w : WriteOutcome) :
    Option ci_simple_file_t :=
  file.map (fun f => { f with endpos := w.endpos })

/-! ## The service callbacks -/

/-- The capacity bound passed to `ci_simple_file_named_new`, as written in the source:
`10*1024*1014`. -/
def store_max_size : Int := 10 * 1024 * 1014

/-- Embedding of `stegowiper_init_request_data`.  `malloc_ok` is the outcome of `malloc`,
`created` the result of `ci_simple_file_named_new`.  Returns the data pointer handed to
the host and the calls made. -/
def stegowiper_init_request_data (malloc_ok : Bool) (created : Option ci_simple_file_t)
    (req : ci_request_t) : Option stegowiper_req_data × List Call :=
  if malloc_ok = false then (none, [])
  else if req.hasbody then
    (some { file := created, eof := 0 },
      [Call.ci_simple_file_named_new "/var/tmp/stegowiper/" store_max_size created])
  else
    (some { file := none, eof := 0 }, [])

/-- Embedding of `stegowiper_release_request_data`: the calls made on the data pointer. -/
def stegowiper_release_request_data (data : Option stegowiper_req_data) : List Call :=
  match data with
  | none => []
  | some d =>
    match d.file with
    | none => []
    | some f => [Call.ci_simple_file_release f]

/-- The `content_type` pointer computed by `stegowiper_check_preview_handler`. -/
def preview_content_type (req : ci_request_t) : Option String :=
  if req.type = ICAP_REQMOD then ci_headers_value req.http_request_headers "Content-Type"
  else if req.type = ICAP_RESPMOD then ci_headers_value req.http_response_headers "Content-Type"
  else none

/-- The test `(content_type != NULL) && (strncmp(content_type, "image/", 6) == 0)`. -/
def preview_is_image (req : ci_request_t) : Bool :=
  match preview_content_type req with
  | none => false
  | some ct => decide (strncmp ct.toList "image/".toList 6 = 0)

/-- Embedding of `stegowiper_check_preview_handler`.  `w` is the outcome of the store write
the handler makes when there are preview bytes.  Returns the return code, the request
state afterwards and the calls made. -/
def stegowiper_check_preview_handler (w : WriteOutcome) (preview_data : List Nat)
    (preview_data_len : Int) (req : ci_request_t) : Int × ci_request_t × List Call :=
  match req.service_data with
  | none => (CI_ERROR, req, [])
  | some d =>
    if req.hasbody = false then (CI_MOD_ALLOW204, req, [])
    else if preview_is_image req then
      if preview_data_len ≠ 0 then
        (CI_MOD_CONTINUE,
          { req with
            service_data := some ⟨file_after_write d.file w, req.eof_received⟩ },
          [Call.ci_simple_file_write d.file preview_data preview_data_len req.eof_received w.ret])
      else (CI_MOD_CONTINUE, req, [])
    else
      if preview_data_len ≠ 0 then
        let req1 : ci_request_t :=
          { req with
            service_data := some ⟨file_after_write d.file w, req.eof_received⟩ }
        let wr :=
          Call.ci_simple_file_write d.file preview_data preview_data_len req.eof_received w.ret
        if req.eof_received ≠ 0 then
          (CI_MOD_ALLOW204, ci_req_unlock_data req1, [wr, Call.ci_req_unlock_data])
        else (CI_MOD_ALLOW204, req1, [wr])
      else (CI_MOD_ALLOW204, req, [])

/-- The command line built by `stegowiper_end_of_data_handler`.  The buffer is filled only
for the two modification directions; otherwise it keeps its indeterminate content
`garbage`. -/
def transform_command (req_type : Int) (garbage input_file_path output_file_path : String) :
    String :=
  if req_type = ICAP_REQMOD ∨ req_type = ICAP_RESPMOD then
    "/usr/local/bin/stegowiper.sh -c stegoWiped " ++ input_file_path ++ " " ++ output_file_path
  else garbage

/-- The header line `sprintf(content_length_header, "Content-Length: %ld", output_length)`. -/
def content_length_header (output_length : Int) : String :=
  "Content-Length: " ++ toString output_length

/-- Embedding of `stegowiper_end_of_data_handler`.  `err` is the value returned by
`system`, `opened` the result of `ci_simple_file_open` on the output path, `garbage` the
indeterminate initial content of the command buffer. -/
def stegowiper_end_of_data_handler (garbage : String) (err : Int)
    (opened : Option ci_simple_file_t) (req : ci_request_t) : Int × ci_request_t × List Call :=
  match req.service_data with
  | none => (CI_ERROR, req, [])
  | some d =>
    match d.file with
    | none => (CI_ERROR, req, [])
    | some f =>
      let input_file_path := f.filename
      let input_length := f.endpos
      let output_file_path := input_file_path ++ "_out"
      let command := transform_command req.type garbage input_file_path output_file_path
      let calls := [Call.ci_simple_file_release f, Call.system command err,
        Call.ci_simple_file_open output_file_path opened]
      match opened with
      | none => (CI_ERROR, { req with service_data := some { d with file := none } }, calls)
      | some g =>
        let output_length := g.endpos
        let req1 : ci_request_t := { req with service_data := some { file := some g, eof := 1 } }
        if input_length ≠ output_length then
          let hdr := content_length_header output_length
          (CI_MOD_DONE,
            ci_req_unlock_data
              (ci_http_response_add_header (ci_http_response_remove_header req1 "Content-Length") hdr),
            calls ++ [Call.ci_http_response_remove_header "Content-Length",
              Call.ci_http_response_add_header hdr, Call.ci_req_unlock_data])
        else
          (CI_MOD_DONE, ci_req_unlock_data req1, calls ++ [Call.ci_req_unlock_data])

/-- What one `stegowiper_io` tick leaves behind: return code, `*wlen`, `*rlen`, request
state and calls made. -/
structure IoResult where
  ret : Int
  wlen : Int
  rlen : Option Int
  req : ci_request_t
  calls : List Call
deriving DecidableEq, Repr

/-- First block of `stegowiper_io`: `if (rlen && rbuf && data->file)` append the bytes read
from the client to the store.  Gives `ret`, `*rlen`, the data afterwards and the calls;
`none` is the dereference of a NULL data pointer. -/
def io_write_step (w : WriteOutcome) (rbuf : Option (List Nat)) (rlen : Option Int) (iseof : Int)
    (data : Option stegowiper_req_data) :
    Option (Int × Option Int × Option stegowiper_req_data × List Call) :=
  match rlen with
  | none => some (CI_OK, rlen, data, [])
  | some n =>
    match rbuf with
    | none => some (CI_OK, rlen, data, [])
    | some bytes =>
      match data with
      | none => none
      | some d =>
        match d.file with
        | none => some (CI_OK, rlen, data, [])
        | some f =>
          some (if w.ret < 0 then CI_ERROR else CI_OK, some w.ret,
            some { d with file := some { f with endpos := w.endpos } },
            [Call.ci_simple_file_write (some f) bytes n iseof w.ret])

/-- Second block of `stegowiper_io`: `if (wbuf && wlen && data->file)` read from the store
into the write buffer.  Gives `*wlen` (still a possibly NULL pointer) and the calls. -/
def io_read_step (r : Int) (wbuf : Bool) (wlen : Option Int)
    (data : Option stegowiper_req_data) : Option (Option Int × List Call) :=
  if wbuf = false then some (wlen, [])
  else
    match wlen with
    | none => some (wlen, [])
    | some n =>
      match data with
      | none => none
      | some d =>
        match d.file with
        | none => some (wlen, [])
        | some f => some (some r, [Call.ci_simple_file_read f n r])

/-- Third block of `stegowiper_io`: `if (*wlen==0 && data->eof==1) *wlen = CI_EOF;`.
Both `wlen` and, when `*wlen` is zero, the data pointer are dereferenced. -/
def io_eof_step (wlen : Option Int) (data : Option stegowiper_req_data) : Option Int :=
  match wlen with
  | none => none
  | some n =>
    if n = 0 then
      match data with
      | none => none
      | some d => if d.eof = 1 then some CI_EOF else some n
    else some n

/-- Embedding of `stegowiper_io`.  `w` is the outcome of the store write, `r` the value
returned by `ci_simple_file_read`; `wbuf` says whether the write buffer is non-NULL,
`rbuf` is the read buffer (`none` when NULL), `wlen`/`rlen` are the in-out length pointers. -/
def stegowiper_io (w : WriteOutcome) (r : Int) (wbuf : Bool) (wlen : Option Int)
    (rbuf : Option (List Nat)) (rlen : Option Int) (iseof : Int) (req : ci_request_t) :
    Option IoResult :=
  match io_write_step w rbuf rlen iseof req.service_data with
  | none => none
  | some (ret, rlen1, data1, calls1) =>
    match io_read_step r wbuf wlen data1 with
    | none => none
    | some (wlen1, calls2) =>
      match io_eof_step wlen1 data1 with
      | none => none
      | some wlen2 =>
        some { ret := ret, wlen := wlen2, rlen := rlen1,
               req := { req with service_data := data1 }, calls := calls1 ++ calls2 }

/-! ## Observations on call traces -/

/-- A call of the host header-mutation interface. -/
def is_header_call : Call → Bool
  | Call.ci_http_response_remove_header _ => true
  | Call.ci_http_response_add_header _ => true
  | _ => false

/-- An invocation of the external transformer. -/
def is_system_call : Call → Bool
  | Call.system _ _ => true
  | _ => false

/-- A write to a scratch store. -/
def is_write_call : Call → Bool
  | Call.ci_simple_file_write _ _ _ _ _ => true
  | _ => false

/-- A release of the host data lock. -/
def is_unlock_call : Call → Bool
  | Call.ci_req_unlock_data => true
  | _ => false

/-! ## Sample exchanges -/

/-- A write-side input store holding 2000 bytes. -/
def sample_input_store : ci_simple_file_t :=
  { addr := 1, filename := "/var/tmp/stegowiper/CI_TMP_abc", endpos := 2000 }

/-- The read-side store over the transformer output, 1800 bytes. -/
def sample_output_store : ci_simple_file_t :=
  { addr := 2, filename := "/var/tmp/stegowiper/CI_TMP_abc_out", endpos := 1800 }

/-- A response-modification exchange carrying a PNG image whose 2000 bytes are stored. -/
def sample_respmod_request : ci_request_t :=
  { type := ICAP_RESPMOD, hasbody := true, eof_received := 1, data_locked := true,
    http_request_headers := some ["GET /a.png HTTP/1.1", "Host: example.org"],
    http_response_headers :=
      some ["HTTP/1.1 200 OK", "Content-Type: image/png", "Content-Length: 2000"],
    service_data := some { file := some sample_input_store, eof := 0 } }

/-- A request-modification exchange (an upload) carrying a PNG image whose 2000 bytes are
stored; the exchange has no encapsulated HTTP response. -/
def sample_reqmod_request : ci_request_t :=
  { type := ICAP_REQMOD, hasbody := true, eof_received := 1, data_locked := true,
    http_request_headers :=
      some ["POST /upload HTTP/1.1", "Content-Type: image/png", "Content-Length: 2000"],
    http_response_headers := none,
    service_data := some { file := some sample_input_store, eof := 0 } }

/-- A store handle as returned by `ci_simple_file_named_new`: nothing written yet. -/
def sample_new_store : ci_simple_file_t :=
  { addr := 1, filename := "/var/tmp/stegowiper/CI_TMP_abc", endpos := 0 }

/-- The sample image response at preview time: the store is still empty and more body
bytes are to come. -/
def sample_preview_request : ci_request_t :=
  { type := ICAP_RESPMOD, hasbody := true, eof_received := 0, data_locked := true,
    http_request_headers := some ["GET /a.png HTTP/1.1", "Host: example.org"],
    http_response_headers :=
      some ["HTTP/1.1 200 OK", "Content-Type: image/png", "Content-Length: 2000"],
    service_data := some { file := some sample_new_store, eof := 0 } }

/-- A response without body (for instance a 304), before the service data is attached. -/
def sample_bodyless_request : ci_request_t :=
  { type := ICAP_RESPMOD, hasbody := false, eof_received := 0, data_locked := true,
    http_request_headers := some ["GET /a.png HTTP/1.1", "Host: example.org"],
    http_response_headers := some ["HTTP/1.1 304 Not Modified", "Content-Type: image/png"],
    service_data := none }

/-! ## The classification rule, as the specification words it -/

/-- The header block of the HTTP message being adapted: the encapsulated request for
request-modification, the encapsulated response for response-modification; any other
transaction adapts no HTTP message. -/
def adapted_message_headers (req : ci_request_t) : Option (List String) :=
  if req.type = ICAP_REQMOD then req.http_request_headers
  else if req.type = ICAP_RESPMOD then req.http_response_headers
  else none

/-- The rule of the specification: the body is an image iff a `Content-Type` header is
present and the first 6 characters of its value are `image/`; no header, no image. -/
def spec_isImage (req : ci_request_t) : Bool :=
  match ci_headers_value (adapted_message_headers req) "Content-Type" with
  | none => false
  | some v => decide (v.toList.take 6 = "image/".toList)

/-- The request made to the store by a read call: handle address, byte bound, result. -/
def read_request : Call → Option (Nat × Int × Int)
  | Call.ci_simple_file_read f len result => some (f.addr, len, result)
  | _ => none

/-! ## One exchange as a sequence of callbacks -/

/-- A callback invocation by the host between `stegowiper_init_request_data` and
`stegowiper_release_request_data`, with the outcomes of the external calls it makes.
`host` is a change the host makes to its own part of the request between callbacks. -/
inductive Step where
  | preview (w : WriteOutcome) (preview_data : List Nat) (preview_data_len : Int)
  | io (w : WriteOutcome) (r : Int) (wbuf : Bool) (wlen : Option Int)
      (rbuf : Option (List Nat)) (rlen : Option Int) (iseof : Int)
  | end_of_data (garbage : String) (err : Int) (opened : Option ci_simple_file_t)
  | host (h : ci_request_t)
deriving DecidableEq, Repr

/-- The running state of an exchange: the request and the calls made so far. -/
structure Exchange where
  req : ci_request_t
  trace : List Call
deriving DecidableEq, Repr

/-- Runs one callback; `none` when `stegowiper_io` dereferences a NULL pointer. -/
def run_step (s : Step) (x : Exchange) : Option Exchange :=
  match s with
  | Step.preview w preview_data preview_data_len =>
    some { req := (stegowiper_check_preview_handler w preview_data preview_data_len x.req).2.1,
           trace := x.trace ++
             (stegowiper_check_preview_handler w preview_data preview_data_len x.req).2.2 }
  | Step.io w r wbuf wlen rbuf rlen iseof =>
    match stegowiper_io w r wbuf wlen rbuf rlen iseof x.req with
    | none => none
    | some res => some { req := res.req, trace := x.trace ++ res.calls }
  | Step.end_of_data garbage err opened =>
    some { req := (stegowiper_end_of_data_handler garbage err opened x.req).2.1,
           trace := x.trace ++ (stegowiper_end_of_data_handler garbage err opened x.req).2.2 }
  | Step.host h => some { req := { h with service_data := x.req.service_data }, trace := x.trace }

/-- Runs the callbacks in order. -/
def run_steps : List Step → Exchange → Option Exchange
  | [], x => some x
  | s :: rest, x =>
    match run_step s x with
    | none => none
    | some y => run_steps rest y

/-- A whole exchange: `stegowiper_init_request_data`, the callbacks `steps`, then
`stegowiper_release_request_data` on the data pointer.  Gives the full call trace. -/
def run_exchange (malloc_ok : Bool) (created : Option ci_simple_file_t) (req : ci_request_t)
    (steps : List Step) : Option (List Call) :=
  match run_steps steps
      { req := { req with
                 service_data := (stegowiper_init_request_data malloc_ok created req).1 },
        trace := (stegowiper_init_request_data malloc_ok created req).2 } with
  | none => none
  | some x => some (x.trace ++ stegowiper_release_request_data x.req.service_data)

/-- Replays a call trace on the list of handle addresses currently held: a successful
`ci_simple_file_named_new` or `ci_simple_file_open` adds its handle, a
`ci_simple_file_release` takes its handle away and is an error (`none`) when that handle
is not held (never obtained, or released already). -/
def held_after : List Nat → List Call → Option (List Nat)
  | held, [] => some held
  | held, Call.ci_simple_file_named_new _ _ (some f) :: rest => held_after (f.addr :: held) rest
  | held, Call.ci_simple_file_open _ (some f) :: rest => held_after (f.addr :: held) rest
  | held, Call.ci_simple_file_release f :: rest =>
    if f.addr ∈ held then held_after (held.erase f.addr) rest else none
  | held, _ :: rest => held_after held rest

/-- The handle held through a data pointer. -/
def held_by_data (data : Option stegowiper_req_data) : List Nat :=
  match data with
  | none => []
  | some d =>
    match d.file with
    | none => []
    | some f => [f.addr]

/-- The handle the exchange holds through its data pointer. -/
def held_by (req : ci_request_t) : List Nat :=
  held_by_data req.service_data

/-- An `io` tick whose `wlen` pointer is NULL would crash the handler. -/
def Step.wlen_given : Step → Bool
  | Step.io _ _ _ wlen _ _ _ => wlen.isSome
  | _ => true

/-- The number of handles obtained in a trace. -/
def count_acquired (trace : List Call) : Nat :=
  (trace.filter (fun c =>
    match c with
    | Call.ci_simple_file_named_new _ _ (some _) => true
    | Call.ci_simple_file_open _ (some _) => true
    | _ => false)).length

/-- The number of handle releases in a trace. -/
def count_released (trace : List Call) : Nat :=
  (trace.filter (fun c =>
    match c with
    | Call.ci_simple_file_release _ => true
    | _ => false)).length

/-- The sample exchange in full: preview of 1024 bytes, the remaining 976 bytes, end of input
with a successful transform to 1800 bytes, two output ticks. -/
def sample_steps : List Step :=
  [Step.preview { ret := 1024, endpos := 1024 } [137, 80] 1024,
   Step.io { ret := 976, endpos := 2000 } 0 true (some 4096) (some [78, 71]) (some 976) 1,
   Step.end_of_data "" 0 (some sample_output_store),
   Step.io { ret := 0, endpos := 1800 } 1800 true (some 4096) none none 1,
   Step.io { ret := 0, endpos := 1800 } 0 true (some 4096) none none 1]

/-! ## End of input: transform, reopen, framing rewrite -/

/-- The calls issued by `stegowiper_end_of_data_handler` when the output store opens: if the
input and output lengths differ, exactly the removal of `Content-Length` followed by the
addition of the one line `Content-Length: <decimal output length>`, both through the
response-header interface, whose header block (when the exchange has one) is changed
accordingly; if the lengths are equal, no header call is made and the header blocks are
unchanged. -/
theorem end_of_data_header_calls (garbage : String) (err : Int) (f g : ci_simple_file_t)
    (d : stegowiper_req_data) (req : ci_request_t)
    (hd : req.service_data = some d) (hf : d.file = some f) :
    (f.endpos ≠ g.endpos →
      (stegowiper_end_of_data_handler garbage err (some g) req).2.2.filter is_header_call =
          [Call.ci_http_response_remove_header "Content-Length",
            Call.ci_http_response_add_header ("Content-Length: " ++ toString g.endpos)] ∧
        (stegowiper_end_of_data_handler garbage err (some g) req).2.1.http_response_headers =
          req.http_response_headers.map (fun lines =>
            ci_headers_add (ci_headers_remove lines "Content-Length")
              ("Content-Length: " ++ toString g.endpos))) ∧
    (f.endpos = g.endpos →
      (stegowiper_end_of_data_handler garbage err (some g) req).2.2.filter is_header_call = [] ∧
        (stegowiper_end_of_data_handler garbage err (some g) req).2.1.http_response_headers =
          req.http_response_headers ∧
        (stegowiper_end_of_data_handler garbage err (some g) req).2.1.http_request_headers =
          req.http_request_headers) := by
  constructor
  · intro hne
    simp [stegowiper_end_of_data_handler, hd, hf, hne, is_header_call, List.filter,
      content_length_header, ci_req_unlock_data, ci_http_response_add_header,
      ci_http_response_remove_header, Function.comp_def]
  · intro heq
    simp [stegowiper_end_of_data_handler, hd, hf, heq, is_header_call, List.filter,
      ci_req_unlock_data]

/-- In response-modification a 2000-byte image transformed to 1800 bytes gets
`Content-Length: 1800`. -/
theorem end_of_data_header_calls_respmod :
    sample_respmod_request.service_data = some { file := some sample_input_store, eof := 0 } ∧
    (stegowiper_end_of_data_handler "" 0 (some sample_output_store)
        sample_respmod_request).2.2.filter is_header_call =
      [Call.ci_http_response_remove_header "Content-Length",
        Call.ci_http_response_add_header "Content-Length: 1800"] ∧
    (stegowiper_end_of_data_handler "" 0 (some sample_output_store)
        sample_respmod_request).2.1.http_response_headers =
      some ["HTTP/1.1 200 OK", "Content-Type: image/png", "Content-Length: 1800"] :=
  ⟨rfl,
    ((end_of_data_header_calls "" 0 sample_input_store sample_output_store
      { file := some sample_input_store, eof := 0 } sample_respmod_request rfl rfl).1
        (by decide)).1,
    by decide⟩

/-- C1 fails on the code for request-modification: for an uploaded image of 2000 bytes whose
output store opens with 1800 bytes, the lengths differ and the handler returns
`CI_MOD_DONE`, yet no header of any message is removed or added: both header blocks are
as before, the request still carries `Content-Length: 2000` and no block carries the line
`Content-Length: 1800`. -/
theorem C1_reqmod_no_header_removed_or_added :
    sample_input_store.endpos ≠ sample_output_store.endpos ∧
    spec_isImage sample_reqmod_request = true ∧
    (stegowiper_end_of_data_handler "" 0 (some sample_output_store)
        sample_reqmod_request).1 = CI_MOD_DONE ∧
    (stegowiper_end_of_data_handler "" 0 (some sample_output_store)
        sample_reqmod_request).2.1.http_request_headers =
      sample_reqmod_request.http_request_headers ∧
    (stegowiper_end_of_data_handler "" 0 (some sample_output_store)
        sample_reqmod_request).2.1.http_response_headers =
      sample_reqmod_request.http_response_headers ∧
    "Content-Length: 2000" ∈
      ((stegowiper_end_of_data_handler "" 0 (some sample_output_store)
        sample_reqmod_request).2.1.http_request_headers.getD []) ∧
    "Content-Length: 1800" ∉
      ((stegowiper_end_of_data_handler "" 0 (some sample_output_store)
          sample_reqmod_request).2.1.http_request_headers.getD []) ++
        ((stegowiper_end_of_data_handler "" 0 (some sample_output_store)
          sample_reqmod_request).2.1.http_response_headers.getD []) := by
  decide

/-- C4 as stated fails: with `system` reporting -1 and the output path nevertheless opening,
the handler returns `CI_MOD_DONE`, rewrites the header, sets `eof` and unlocks the data. -/
theorem C4_launch_failure_not_fatal :
    (stegowiper_end_of_data_handler "" (-1) (some sample_output_store)
        sample_respmod_request).1 = CI_MOD_DONE ∧
    (stegowiper_end_of_data_handler "" (-1) (some sample_output_store)
        sample_respmod_request).1 ≠ CI_ERROR ∧
    (stegowiper_end_of_data_handler "" (-1) (some sample_output_store)
        sample_respmod_request).2.2.filter is_header_call =
      [Call.ci_http_response_remove_header "Content-Length",
        Call.ci_http_response_add_header "Content-Length: 1800"] ∧
    (stegowiper_end_of_data_handler "" (-1) (some sample_output_store)
        sample_respmod_request).2.1.service_data =
      some { file := some sample_output_store, eof := 1 } ∧
    (stegowiper_end_of_data_handler "" (-1) (some sample_output_store)
        sample_respmod_request).2.1.data_locked = false := by
  decide

/-- C4 amended: when `system` reports -1 and the output path then cannot be opened, the
handler returns `CI_ERROR`, makes no header call, leaves `eof` and the data lock as they
were, makes no unlock call, and has released the input store (the first call of the
handler) without holding any handle afterwards.  The value -1 alone only reaches the log:
the return code is `CI_MOD_DONE` exactly when the output path opens. -/
theorem C4_launch_failure_with_missing_output (garbage : String) (err : Int)
    (opened : Option ci_simple_file_t) (f : ci_simple_file_t) (d : stegowiper_req_data)
    (req : ci_request_t) (hd : req.service_data = some d) (hf : d.file = some f)
    (herr : err = -1) :
    (opened = none →
      (stegowiper_end_of_data_handler garbage err opened req).1 = CI_ERROR ∧
      (stegowiper_end_of_data_handler garbage err opened req).2.2.filter is_header_call = [] ∧
      (stegowiper_end_of_data_handler garbage err opened req).2.2.filter is_unlock_call = [] ∧
      (stegowiper_end_of_data_handler garbage err opened req).2.2.head? =
        some (Call.ci_simple_file_release f) ∧
      (stegowiper_end_of_data_handler garbage err opened req).2.1.service_data =
        some { file := none, eof := d.eof } ∧
      (stegowiper_end_of_data_handler garbage err opened req).2.1.data_locked = req.data_locked ∧
      (stegowiper_end_of_data_handler garbage err opened req).2.1.http_response_headers =
        req.http_response_headers ∧
      (stegowiper_end_of_data_handler garbage err opened req).2.1.http_request_headers =
        req.http_request_headers) ∧
    ((stegowiper_end_of_data_handler garbage err opened req).1 = CI_MOD_DONE ↔
      opened ≠ none) := by
  subst herr
  constructor
  · intro ho
    subst ho
    simp [stegowiper_end_of_data_handler, hd, hf, is_header_call, is_unlock_call, List.filter]
  · cases opened with
    | none => simp [stegowiper_end_of_data_handler, hd, hf, CI_ERROR, CI_MOD_DONE]
    | some g =>
      by_cases h : f.endpos = g.endpos <;>
        simp [stegowiper_end_of_data_handler, hd, hf, h]

/-- Witness for the amended C4: launch failure and no output file end the exchange in error. -/
theorem C4_launch_failure_with_missing_output_witness :
    sample_respmod_request.service_data = some { file := some sample_input_store, eof := 0 } ∧
    (stegowiper_end_of_data_handler "" (-1) none sample_respmod_request).1 = CI_ERROR ∧
    (stegowiper_end_of_data_handler "" (-1) none sample_respmod_request).2.2.head? =
      some (Call.ci_simple_file_release sample_input_store) :=
  ⟨rfl,
    ((C4_launch_failure_with_missing_output "" (-1) none sample_input_store
      { file := some sample_input_store, eof := 0 } sample_respmod_request rfl rfl rfl).1 rfl).1,
    ((C4_launch_failure_with_missing_output "" (-1) none sample_input_store
      { file := some sample_input_store, eof := 0 } sample_respmod_request rfl rfl
        rfl).1 rfl).2.2.2.1⟩

/-- C5: when the open of the output path (input path followed by `_out`) fails, the handler
returns `CI_ERROR`; its calls are exactly the release of the input store, the transformer
invocation and the failed open, so no header is removed or added and the data lock is
not released; the `eof` flag, the lock and both header blocks are as before and the
exchange holds no store handle.  Conversely `CI_MOD_DONE` is returned only when the
output store opened. -/
theorem C5_output_open_failure (garbage : String) (err : Int) (f : ci_simple_file_t)
    (d : stegowiper_req_data) (req : ci_request_t)
    (hd : req.service_data = some d) (hf : d.file = some f) :
    (stegowiper_end_of_data_handler garbage err none req).1 = CI_ERROR ∧
    (stegowiper_end_of_data_handler garbage err none req).2.2 =
      [Call.ci_simple_file_release f,
        Call.system (transform_command req.type garbage f.filename (f.filename ++ "_out")) err,
        Call.ci_simple_file_open (f.filename ++ "_out") none] ∧
    (stegowiper_end_of_data_handler garbage err none req).2.1 =
      { req with service_data := some { file := none, eof := d.eof } } ∧
    (∀ opened : Option ci_simple_file_t,
      (stegowiper_end_of_data_handler garbage err opened req).1 = CI_MOD_DONE →
        ∃ g, opened = some g ∧
          Call.ci_simple_file_open (f.filename ++ "_out") (some g) ∈
            (stegowiper_end_of_data_handler garbage err opened req).2.2) := by
  refine ⟨?_, ?_, ?_, ?_⟩
  · simp [stegowiper_end_of_data_handler, hd, hf]
  · simp [stegowiper_end_of_data_handler, hd, hf]
  · simp [stegowiper_end_of_data_handler, hd, hf]
  · intro opened
    cases opened with
    | none => simp [stegowiper_end_of_data_handler, hd, hf, CI_ERROR, CI_MOD_DONE]
    | some g =>
      intro _
      refine ⟨g, rfl, ?_⟩
      by_cases h : f.endpos = g.endpos <;>
        simp [stegowiper_end_of_data_handler, hd, hf, h]

/-- Witness for C5: a missing transformer output ends the sample exchange in error. -/
theorem C5_output_open_failure_witness :
    sample_respmod_request.service_data = some { file := some sample_input_store, eof := 0 } ∧
    (stegowiper_end_of_data_handler "" 0 none sample_respmod_request).1 = CI_ERROR ∧
    (stegowiper_end_of_data_handler "" 0 none sample_respmod_request).2.2 =
      [Call.ci_simple_file_release sample_input_store,
        Call.system (transform_command sample_respmod_request.type ""
          sample_input_store.filename (sample_input_store.filename ++ "_out")) 0,
        Call.ci_simple_file_open (sample_input_store.filename ++ "_out") none] :=
  ⟨rfl,
    (C5_output_open_failure "" 0 sample_input_store
      { file := some sample_input_store, eof := 0 } sample_respmod_request rfl rfl).1,
    (C5_output_open_failure "" 0 sample_input_store
      { file := some sample_input_store, eof := 0 } sample_respmod_request rfl rfl).2.1⟩

/-! ## Preview: classification and short-circuit -/

/-- Two characters with different code points differ by a non-zero amount. -/
theorem char_toNat_sub_ne_zero (a b : Char) (h : a ≠ b) :
    (a.toNat : Int) - (b.toNat : Int) ≠ 0 := by
  intro h0
  apply h
  have h1 : a.toNat = b.toNat := by omega
  apply Char.ext
  apply UInt32.ext
  exact h1

/-- On a NUL-free second string of at least `n` characters, `strncmp` returns zero exactly
when the first `n` characters agree. -/
theorem strncmp_eq_zero_iff (n : Nat) : ∀ (s t : List Char), n ≤ t.length →
    (∀ c ∈ t, c.toNat ≠ 0) → (strncmp s t n = 0 ↔ s.take n = t.take n) := by
  induction n with
  | zero => intro s t _ _; simp [strncmp]
  | succ n ih =>
    intro s t hlen hnul
    cases t with
    | nil => simp at hlen
    | cons b bs =>
      cases s with
      | nil =>
        have hb : b.toNat ≠ 0 := hnul b (by simp)
        simp [strncmp]
        omega
      | cons a as =>
        by_cases hab : a = b
        · subst hab
          have := ih as bs (by simpa using hlen) (fun c hc => hnul c (by simp [hc]))
          simpa [strncmp] using this
        · have := char_toNat_sub_ne_zero a b hab
          simp [strncmp, hab, this]

/-- The test made by the handler on a non-NULL `content_type` is the 6-character prefix test. -/
theorem strncmp_image_test (ct : String) :
    strncmp ct.toList "image/".toList 6 = 0 ↔ ct.toList.take 6 = "image/".toList := by
  have h := strncmp_eq_zero_iff 6 ct.toList "image/".toList (by decide) (by decide)
  simpa using h

/-- The classification computed by the handler is the rule of the specification. -/
theorem preview_is_image_eq_spec (req : ci_request_t) :
    preview_is_image req = spec_isImage req := by
  have hct : preview_content_type req =
      ci_headers_value (adapted_message_headers req) "Content-Type" := by
    unfold preview_content_type adapted_message_headers
    by_cases h1 : req.type = ICAP_REQMOD
    · rw [if_pos h1, if_pos h1]
    · rw [if_neg h1, if_neg h1]
      by_cases h2 : req.type = ICAP_RESPMOD
      · rw [if_pos h2, if_pos h2]
      · rw [if_neg h2, if_neg h2]
        rfl
  unfold preview_is_image spec_isImage
  rw [hct]
  cases ci_headers_value (adapted_message_headers req) "Content-Type" with
  | none => rfl
  | some v =>
    simp only
    exact decide_eq_decide.mpr (strncmp_image_test v)

/-- C2: for an exchange with a body and non-NULL request data, the preview handler treats
the body as an image iff the adapted message has a `Content-Type` header whose value
starts with the 6 characters `image/`; it returns `CI_MOD_CONTINUE` exactly in that case
and `CI_MOD_ALLOW204` exactly otherwise, and it never invokes the transformer. -/
theorem C2_preview_classification (w : WriteOutcome) (preview_data : List Nat)
    (preview_data_len : Int) (req : ci_request_t) (d : stegowiper_req_data)
    (hbody : req.hasbody = true) (hdata : req.service_data = some d) :
    (preview_is_image req = true ↔
      ∃ v, ci_headers_value (adapted_message_headers req) "Content-Type" = some v ∧
        v.toList.take 6 = "image/".toList) ∧
    ((stegowiper_check_preview_handler w preview_data preview_data_len req).1 = CI_MOD_CONTINUE ↔
      spec_isImage req = true) ∧
    ((stegowiper_check_preview_handler w preview_data preview_data_len req).1 = CI_MOD_ALLOW204 ↔
      spec_isImage req = false) ∧
    (stegowiper_check_preview_handler w preview_data preview_data_len req).2.2.filter
      is_system_call = [] := by
  have hspec := preview_is_image_eq_spec req
  refine ⟨?_, ?_, ?_, ?_⟩
  · rw [hspec]
    unfold spec_isImage
    cases ci_headers_value (adapted_message_headers req) "Content-Type" with
    | none => simp
    | some v => simp
  · rw [← hspec]
    by_cases hi : preview_is_image req = true <;> by_cases hl : preview_data_len = 0 <;>
      by_cases he : req.eof_received = 0 <;>
      simp [stegowiper_check_preview_handler, hbody, hdata, hi, hl, he, CI_MOD_CONTINUE,
        CI_MOD_ALLOW204]
  · rw [← hspec]
    by_cases hi : preview_is_image req = true <;> by_cases hl : preview_data_len = 0 <;>
      by_cases he : req.eof_received = 0 <;>
      simp [stegowiper_check_preview_handler, hbody, hdata, hi, hl, he, CI_MOD_CONTINUE,
        CI_MOD_ALLOW204]
  · by_cases hi : preview_is_image req = true <;> by_cases hl : preview_data_len = 0 <;>
      by_cases he : req.eof_received = 0 <;>
      simp [stegowiper_check_preview_handler, hbody, hdata, hi, hl, he, is_system_call,
        List.filter]

/-- Witness for C2: the sample PNG response is classified as an image and continued. -/
theorem C2_preview_classification_witness :
    sample_preview_request.hasbody = true ∧
    sample_preview_request.service_data = some { file := some sample_new_store, eof := 0 } ∧
    ((stegowiper_check_preview_handler { ret := 2, endpos := 2 } [137, 80] 2
        sample_preview_request).1 = CI_MOD_CONTINUE ↔
      spec_isImage sample_preview_request = true) ∧
    spec_isImage sample_preview_request = true :=
  ⟨rfl, rfl,
    (C2_preview_classification { ret := 2, endpos := 2 } [137, 80] 2 sample_preview_request
      { file := some sample_new_store, eof := 0 } rfl rfl).2.1,
    by decide⟩

/-- C3 as stated fails: for a body-less exchange whose data allocation failed,
`stegowiper_init_request_data` returns NULL and `stegowiper_check_preview_handler`, which
tests the data pointer before the body flag, returns `CI_ERROR`, not `CI_MOD_ALLOW204`. -/
theorem C3_no_body_failed_allocation :
    sample_bodyless_request.hasbody = false ∧
    stegowiper_init_request_data false (some sample_new_store) sample_bodyless_request =
      (none, []) ∧
    (stegowiper_check_preview_handler { ret := 2, endpos := 2 } [137, 80] 2
        { sample_bodyless_request with
          service_data :=
            (stegowiper_init_request_data false (some sample_new_store)
              sample_bodyless_request).1 }).1 = CI_ERROR ∧
    (stegowiper_check_preview_handler { ret := 2, endpos := 2 } [137, 80] 2
        { sample_bodyless_request with
          service_data :=
            (stegowiper_init_request_data false (some sample_new_store)
              sample_bodyless_request).1 }).1 ≠ CI_MOD_ALLOW204 := by
  decide

/-- C3 amended: for an exchange without body, `stegowiper_init_request_data` allocates no
scratch store: it makes no call whatever the outcome of the data allocation, and the data
it returns when the allocation succeeds has a NULL file and `eof = 0`.  With any non-NULL
request data, `stegowiper_check_preview_handler` returns `CI_MOD_ALLOW204` with no call
made and the request state unchanged, whatever the headers, the direction and the preview
bytes; with NULL request data it returns `CI_ERROR`, again with no call made. -/
theorem C3_no_body_short_circuit (created : Option ci_simple_file_t) (w : WriteOutcome)
    (preview_data : List Nat) (preview_data_len : Int) (req : ci_request_t)
    (hbody : req.hasbody = false) :
    (∀ malloc_ok, (stegowiper_init_request_data malloc_ok created req).2 = []) ∧
    stegowiper_init_request_data true created req = (some { file := none, eof := 0 }, []) ∧
    stegowiper_init_request_data false created req = (none, []) ∧
    (∀ d : stegowiper_req_data,
      stegowiper_check_preview_handler w preview_data preview_data_len
          { req with service_data := some d } =
        (CI_MOD_ALLOW204, { req with service_data := some d }, [])) ∧
    stegowiper_check_preview_handler w preview_data preview_data_len
        { req with service_data := none } =
      (CI_ERROR, { req with service_data := none }, []) := by
  refine ⟨?_, ?_, ?_, ?_, ?_⟩
  · intro malloc_ok
    cases malloc_ok <;> simp [stegowiper_init_request_data, hbody]
  · simp [stegowiper_init_request_data, hbody]
  · simp [stegowiper_init_request_data]
  · intro d
    simp [stegowiper_check_preview_handler, hbody]
  · simp [stegowiper_check_preview_handler]

/-- Witness for the amended C3: a body-less response with an image content type and allocated
request data is short-circuited. -/
theorem C3_no_body_short_circuit_witness :
    sample_bodyless_request.hasbody = false ∧
    stegowiper_init_request_data true (some sample_new_store) sample_bodyless_request =
      (some { file := none, eof := 0 }, []) ∧
    (stegowiper_check_preview_handler { ret := 2, endpos := 2 } [137, 80] 2
        { sample_bodyless_request with service_data := some { file := none, eof := 0 } }).1 =
      CI_MOD_ALLOW204 :=
  ⟨rfl,
    (C3_no_body_short_circuit (some sample_new_store) { ret := 2, endpos := 2 } [137, 80] 2
      sample_bodyless_request rfl).2.1,
    congrArg Prod.fst
      ((C3_no_body_short_circuit (some sample_new_store) { ret := 2, endpos := 2 } [137, 80] 2
        sample_bodyless_request rfl).2.2.2.1 { file := none, eof := 0 })⟩

/-! ## Capacity bound and write failures -/

/-- C6 fails on the code: the bound handed to `ci_simple_file_named_new` for an exchange
with a body is `10*1024*1014 = 10383360`, not 10 MiB `= 10*1024*1024 = 10485760`. -/
theorem C6_capacity_bound_is_not_10MiB :
    (stegowiper_init_request_data true (some sample_new_store)
        { sample_preview_request with service_data := none }).2 =
      [Call.ci_simple_file_named_new "/var/tmp/stegowiper/" 10383360 (some sample_new_store)] ∧
    store_max_size = 10383360 ∧
    store_max_size ≠ 10 * 1024 * 1024 ∧
    (10 * 1024 * 1024 : Int) = 10485760 := by
  decide

/-- C7 fails on the code for the preview handler: a failed store write (result -1) of the
preview bytes is ignored, the handler returns `CI_MOD_CONTINUE` for an image and
`CI_MOD_ALLOW204` for a non-image, never `CI_ERROR`. -/
theorem C7_preview_ignores_write_failure :
    (stegowiper_check_preview_handler { ret := -1, endpos := 0 } [137, 80] 2
        sample_preview_request).1 = CI_MOD_CONTINUE ∧
    (stegowiper_check_preview_handler { ret := -1, endpos := 0 } [137, 80] 2
        sample_preview_request).1 ≠ CI_ERROR ∧
    (stegowiper_check_preview_handler { ret := -1, endpos := 0 } [137, 80] 2
        sample_preview_request).2.2 =
      [Call.ci_simple_file_write (some sample_new_store) [137, 80] 2 0 (-1)] ∧
    (stegowiper_check_preview_handler { ret := -1, endpos := 0 } [60, 104] 2
        { sample_preview_request with
          http_response_headers := some ["HTTP/1.1 200 OK", "Content-Type: text/html"] }).1 =
      CI_MOD_ALLOW204 := by
  decide

/-- The `stegowiper_io` half of C7 holds: when the callback appends bytes to a store and the
write result is negative, it returns `CI_ERROR` (whenever it returns), and `*rlen` carries
the negative result. -/
theorem stegowiper_io_surfaces_write_failure (w : WriteOutcome) (r : Int) (wbuf : Bool)
    (wlen : Option Int) (bytes : List Nat) (n iseof : Int) (req : ci_request_t)
    (d : stegowiper_req_data) (f : ci_simple_file_t) (res : IoResult)
    (hd : req.service_data = some d) (hf : d.file = some f) (hw : w.ret < 0)
    (hres : stegowiper_io w r wbuf wlen (some bytes) (some n) iseof req = some res) :
    res.ret = CI_ERROR ∧ res.rlen = some w.ret := by
  unfold stegowiper_io at hres
  simp only [io_write_step, hd, hf, hw, if_true] at hres
  split at hres
  · cases hres
  · split at hres
    · cases hres
    · cases hres
      exact ⟨rfl, rfl⟩

/-! ## Output ticks -/

/-- C8: on a `stegowiper_io` tick with a non-NULL write buffer of capacity `n` and a store
present, the handler returns, it makes exactly one store read, bounded by `n`, and the
byte count handed to the host is the result `r` of that read, except that it is `CI_EOF`
when `r = 0` and the `eof` flag is 1.  So a zero-byte read with `eof` other than 1 is
reported as 0, and `CI_EOF` replaces the read result iff `r = 0` and `eof = 1`. -/
theorem C8_io_output_count (w : WriteOutcome) (r n : Int) (rbuf : Option (List Nat))
    (rlen : Option Int) (iseof : Int) (req : ci_request_t) (d : stegowiper_req_data)
    (f : ci_simple_file_t) (hd : req.service_data = some d) (hf : d.file = some f) :
    ∃ res, stegowiper_io w r true (some n) rbuf rlen iseof req = some res ∧
      res.calls.filterMap read_request = [(f.addr, n, r)] ∧
      res.wlen = (if r = 0 ∧ d.eof = 1 then CI_EOF else r) ∧
      (d.eof ≠ 1 → res.wlen = r) ∧
      ((res.wlen = CI_EOF ∧ res.wlen ≠ r) ↔ (r = 0 ∧ d.eof = 1)) := by
  have hcases : (r = 0 ∧ d.eof = 1) ∨ ¬ (r = 0 ∧ d.eof = 1) := em _
  cases rlen with
  | none =>
    rcases hcases with ⟨hr, he⟩ | hn
    · subst hr
      refine ⟨_, by simp [stegowiper_io, io_write_step, io_read_step, io_eof_step, hd, hf, he]; rfl,
        ?_, ?_, ?_, ?_⟩ <;> simp [read_request, he, CI_EOF]
    · by_cases hr : r = 0
      · have he : d.eof ≠ 1 := fun h => hn ⟨hr, h⟩
        subst hr
        refine ⟨_, by simp [stegowiper_io, io_write_step, io_read_step, io_eof_step, hd, hf, he]; rfl,
          ?_, ?_, ?_, ?_⟩ <;> simp [read_request, he, CI_EOF]
      · refine ⟨_, by simp [stegowiper_io, io_write_step, io_read_step, io_eof_step, hd, hf, hr]; rfl,
          ?_, ?_, ?_, ?_⟩ <;> simp [read_request, hr, CI_EOF]
  | some m =>
    cases rbuf with
    | none =>
      rcases hcases with ⟨hr, he⟩ | hn
      · subst hr
        refine ⟨_, by simp [stegowiper_io, io_write_step, io_read_step, io_eof_step, hd, hf, he]; rfl,
          ?_, ?_, ?_, ?_⟩ <;> simp [read_request, he, CI_EOF]
      · by_cases hr : r = 0
        · have he : d.eof ≠ 1 := fun h => hn ⟨hr, h⟩
          subst hr
          refine ⟨_, by simp [stegowiper_io, io_write_step, io_read_step, io_eof_step, hd, hf, he]; rfl,
            ?_, ?_, ?_, ?_⟩ <;> simp [read_request, he, CI_EOF]
        · refine ⟨_, by simp [stegowiper_io, io_write_step, io_read_step, io_eof_step, hd, hf, hr]; rfl,
            ?_, ?_, ?_, ?_⟩ <;> simp [read_request, hr, CI_EOF]
    | some bytes =>
      rcases hcases with ⟨hr, he⟩ | hn
      · subst hr
        refine ⟨_, by simp [stegowiper_io, io_write_step, io_read_step, io_eof_step, hd, hf, he]; rfl,
          ?_, ?_, ?_, ?_⟩ <;> simp [read_request, is_write_call, he, CI_EOF]
      · by_cases hr : r = 0
        · have he : d.eof ≠ 1 := fun h => hn ⟨hr, h⟩
          subst hr
          refine ⟨_, by simp [stegowiper_io, io_write_step, io_read_step, io_eof_step, hd, hf, he]; rfl,
            ?_, ?_, ?_, ?_⟩ <;> simp [read_request, he, CI_EOF]
        · refine ⟨_, by simp [stegowiper_io, io_write_step, io_read_step, io_eof_step, hd, hf, hr]; rfl,
            ?_, ?_, ?_, ?_⟩ <;> simp [read_request, hr, CI_EOF]

/-- Witness for C8: once `eof` is set, a zero-byte read of the output store is turned into
`CI_EOF`. -/
theorem C8_io_output_count_witness :
    ({ sample_respmod_request with
        service_data := some { file := some sample_output_store, eof := 1 } } :
      ci_request_t).service_data = some { file := some sample_output_store, eof := 1 } ∧
    ∃ res, stegowiper_io { ret := 0, endpos := 1800 } 0 true (some 4096) none none 1
        { sample_respmod_request with
          service_data := some { file := some sample_output_store, eof := 1 } } = some res ∧
      res.wlen = CI_EOF :=
  ⟨rfl,
    (C8_io_output_count { ret := 0, endpos := 1800 } 0 4096 none none 1
      { sample_respmod_request with
        service_data := some { file := some sample_output_store, eof := 1 } }
      { file := some sample_output_store, eof := 1 } sample_output_store rfl rfl).elim
      (fun res h => ⟨res, h.1, h.2.2.1.trans (by decide)⟩)⟩

/-! ## Which message gets the new length -/

/-- C10 fails on the code for request-modification: for an uploaded image of 2000 bytes
transformed to 1800 bytes, the handler calls the response-header interface only; the
encapsulated request, from which the preview handler read `Content-Type`, still declares
`Content-Length: 2000`, and the exchange has no response header block to change. -/
theorem C10_reqmod_request_length_not_rewritten :
    sample_reqmod_request.type = ICAP_REQMOD ∧
    preview_content_type sample_reqmod_request = some "image/png" ∧
    (stegowiper_end_of_data_handler "" 0 (some sample_output_store)
        sample_reqmod_request).1 = CI_MOD_DONE ∧
    (stegowiper_end_of_data_handler "" 0 (some sample_output_store)
        sample_reqmod_request).2.2.filter is_header_call =
      [Call.ci_http_response_remove_header "Content-Length",
        Call.ci_http_response_add_header "Content-Length: 1800"] ∧
    (stegowiper_end_of_data_handler "" 0 (some sample_output_store)
        sample_reqmod_request).2.1.http_request_headers =
      some ["POST /upload HTTP/1.1", "Content-Type: image/png", "Content-Length: 2000"] ∧
    ci_headers_value (adapted_message_headers
        (stegowiper_end_of_data_handler "" 0 (some sample_output_store)
          sample_reqmod_request).2.1) "Content-Length" = some "2000" ∧
    (stegowiper_end_of_data_handler "" 0 (some sample_output_store)
        sample_reqmod_request).2.1.http_response_headers = none := by
  decide

/-- The response-modification half of C10 holds: there the header block that is rewritten is
the one the preview handler read `Content-Type` from. -/
theorem respmod_rewrites_adapted_message (garbage : String) (err : Int)
    (f g : ci_simple_file_t) (d : stegowiper_req_data) (req : ci_request_t)
    (hd : req.service_data = some d) (hf : d.file = some f) (hne : f.endpos ≠ g.endpos)
    (hresp : req.type = ICAP_RESPMOD) :
    adapted_message_headers (stegowiper_end_of_data_handler garbage err (some g) req).2.1 =
      (adapted_message_headers req).map (fun lines =>
        ci_headers_add (ci_headers_remove lines "Content-Length")
          ("Content-Length: " ++ toString g.endpos)) := by
  have h2 : ¬ (ICAP_RESPMOD = ICAP_REQMOD) := by decide
  simp [stegowiper_end_of_data_handler, hd, hf, hne, adapted_message_headers, hresp, h2,
    content_length_header, ci_req_unlock_data, ci_http_response_add_header,
    ci_http_response_remove_header, Function.comp_def]

/-! ## Store handles are released exactly once -/

/-- Replaying a concatenated trace is replaying its parts in turn. -/
theorem held_after_append (t1 t2 : List Call) : ∀ held : List Nat,
    held_after held (t1 ++ t2) = (held_after held t1).bind (fun h => held_after h t2) := by
  induction t1 with
  | nil => intro held; simp [held_after]
  | cons c rest ih =>
    intro held
    cases c with
    | ci_simple_file_named_new dir m result =>
      cases result <;> simp [held_after, ih]
    | ci_simple_file_open path result =>
      cases result <;> simp [held_after, ih]
    | ci_simple_file_release f =>
      by_cases h : f.addr ∈ held <;> simp [held_after, ih, h]
    | _ => simp [held_after, ih]

/-- After `stegowiper_init_request_data` the handles held are those of the data pointer. -/
theorem init_held (malloc_ok : Bool) (created : Option ci_simple_file_t) (req : ci_request_t) :
    held_after [] (stegowiper_init_request_data malloc_ok created req).2 =
      some (held_by { req with
        service_data := (stegowiper_init_request_data malloc_ok created req).1 }) := by
  cases malloc_ok <;> cases hb : req.hasbody <;> cases created <;>
    simp [stegowiper_init_request_data, hb, held_after, held_by, held_by_data]

/-- The preview handler neither obtains nor releases a handle. -/
theorem preview_held (w : WriteOutcome) (preview_data : List Nat) (preview_data_len : Int)
    (req : ci_request_t) :
    held_after (held_by req)
        (stegowiper_check_preview_handler w preview_data preview_data_len req).2.2 =
      some (held_by (stegowiper_check_preview_handler w preview_data preview_data_len req).2.1) := by
  cases hd : req.service_data with
  | none => simp [stegowiper_check_preview_handler, hd, held_after]
  | some d =>
    cases hf : d.file <;> cases hb : req.hasbody <;>
      by_cases hi : preview_is_image req = true <;> by_cases hl : preview_data_len = 0 <;>
      by_cases he : req.eof_received = 0 <;>
      simp [stegowiper_check_preview_handler, hd, hf, hb, hi, hl, he, held_after, held_by,
        held_by_data, file_after_write, ci_req_unlock_data]

/-- The end-of-data handler releases the handle it holds and holds the one it opened. -/
theorem end_of_data_held (garbage : String) (err : Int) (opened : Option ci_simple_file_t)
    (req : ci_request_t) :
    held_after (held_by req) (stegowiper_end_of_data_handler garbage err opened req).2.2 =
      some (held_by (stegowiper_end_of_data_handler garbage err opened req).2.1) := by
  cases hd : req.service_data with
  | none => simp [stegowiper_end_of_data_handler, hd, held_after]
  | some d =>
    cases hf : d.file with
    | none => simp [stegowiper_end_of_data_handler, hd, hf, held_after]
    | some f =>
      cases opened with
      | none => simp [stegowiper_end_of_data_handler, hd, hf, held_after, held_by, held_by_data]
      | some g =>
        by_cases h : f.endpos = g.endpos <;>
          simp [stegowiper_end_of_data_handler, hd, hf, h, held_after, held_by, held_by_data,
            ci_req_unlock_data, ci_http_response_add_header, ci_http_response_remove_header]

/-- The write block of `stegowiper_io` keeps the handle of the data pointer and its calls
leave the held handles alone. -/
theorem io_write_step_held (w : WriteOutcome) (rbuf : Option (List Nat)) (rlen : Option Int)
    (iseof : Int) (data : Option stegowiper_req_data)
    (out : Int × Option Int × Option stegowiper_req_data × List Call)
    (h : io_write_step w rbuf rlen iseof data = some out) (held : List Nat) :
    held_after held out.2.2.2 = some held ∧ held_by_data out.2.2.1 = held_by_data data := by
  cases rlen with
  | none =>
    simp [io_write_step] at h
    subst h
    simp [held_after]
  | some n =>
    cases rbuf with
    | none =>
      simp [io_write_step] at h
      subst h
      simp [held_after]
    | some bytes =>
      cases data with
      | none => simp [io_write_step] at h
      | some d =>
        cases hf : d.file with
        | none =>
          simp [io_write_step, hf] at h
          subst h
          simp [held_after]
        | some f =>
          simp [io_write_step, hf] at h
          subst h
          simp [held_after, held_by_data, hf]

/-- The calls of the read block of `stegowiper_io` leave the held handles alone. -/
theorem io_read_step_held (r : Int) (wbuf : Bool) (wlen : Option Int)
    (data : Option stegowiper_req_data) (out : Option Int × List Call)
    (h : io_read_step r wbuf wlen data = some out) (held : List Nat) :
    held_after held out.2 = some held := by
  cases wbuf with
  | false =>
    simp [io_read_step] at h
    subst h
    simp [held_after]
  | true =>
    cases wlen with
    | none =>
      simp [io_read_step] at h
      subst h
      simp [held_after]
    | some n =>
      cases data with
      | none => simp [io_read_step] at h
      | some d =>
        cases hf : d.file with
        | none =>
          simp [io_read_step, hf] at h
          subst h
          simp [held_after]
        | some f =>
          simp [io_read_step, hf] at h
          subst h
          simp [held_after]

/-- A `stegowiper_io` tick that returns neither obtains nor releases a handle. -/
theorem io_held (w : WriteOutcome) (r : Int) (wbuf : Bool) (wlen : Option Int)
    (rbuf : Option (List Nat)) (rlen : Option Int) (iseof : Int) (req : ci_request_t)
    (res : IoResult) (h : stegowiper_io w r wbuf wlen rbuf rlen iseof req = some res) :
    held_after (held_by req) res.calls = some (held_by res.req) := by
  unfold stegowiper_io at h
  cases h1 : io_write_step w rbuf rlen iseof req.service_data with
  | none => simp [h1] at h
  | some o1 =>
    obtain ⟨ret, rlen1, data1, calls1⟩ := o1
    cases h2 : io_read_step r wbuf wlen data1 with
    | none => simp [h1, h2] at h
    | some o2 =>
      obtain ⟨wlen1, calls2⟩ := o2
      cases h3 : io_eof_step wlen1 data1 with
      | none => simp [h1, h2, h3] at h
      | some wlen2 =>
        simp [h1, h2, h3] at h
        subst h
        have hw := io_write_step_held w rbuf rlen iseof req.service_data _ h1 (held_by req)
        have hr := io_read_step_held r wbuf wlen data1 _ h2 (held_by req)
        simp only [held_by] at hw hr
        simp [held_after_append, hw.1, hr, held_by, hw.2]

/-- The release callback gives back exactly the handle of the data pointer. -/
theorem release_held (data : Option stegowiper_req_data) :
    held_after (held_by_data data) (stegowiper_release_request_data data) = some [] := by
  cases data with
  | none => simp [stegowiper_release_request_data, held_by_data, held_after]
  | some d =>
    cases hf : d.file <;>
      simp [stegowiper_release_request_data, held_by_data, held_after, hf]

/-- Every callback that returns keeps the trace and the data pointer in step. -/
theorem run_step_held (s : Step) (x y : Exchange) (h : run_step s x = some y)
    (hx : held_after [] x.trace = some (held_by x.req)) :
    held_after [] y.trace = some (held_by y.req) := by
  cases s with
  | preview w preview_data preview_data_len =>
    simp [run_step] at h
    subst h
    simp [held_after_append, hx, preview_held]
  | io w r wbuf wlen rbuf rlen iseof =>
    cases hio : stegowiper_io w r wbuf wlen rbuf rlen iseof x.req with
    | none => simp [run_step, hio] at h
    | some res =>
      simp [run_step, hio] at h
      subst h
      simp [held_after_append, hx, io_held w r wbuf wlen rbuf rlen iseof x.req res hio]
  | end_of_data garbage err opened =>
    simp [run_step] at h
    subst h
    simp [held_after_append, hx, end_of_data_held]
  | host hreq =>
    simp [run_step] at h
    subst h
    simpa [held_by] using hx

/-- The same along any sequence of callbacks. -/
theorem run_steps_held (steps : List Step) : ∀ (x y : Exchange), run_steps steps x = some y →
    held_after [] x.trace = some (held_by x.req) →
    held_after [] y.trace = some (held_by y.req) := by
  induction steps with
  | nil =>
    intro x y h hx
    simp [run_steps] at h
    subst h
    exact hx
  | cons s rest ih =>
    intro x y h hx
    cases hs : run_step s x with
    | none => simp [run_steps, hs] at h
    | some z =>
      simp [run_steps, hs] at h
      exact ih z y h (run_step_held s x z hs hx)

/-- A replay that succeeds balances the books: handles held before plus handles obtained
equal handles held after plus handles released. -/
theorem held_after_count (trace : List Call) : ∀ (held held2 : List Nat),
    held_after held trace = some held2 →
    held.length + count_acquired trace = held2.length + count_released trace := by
  induction trace with
  | nil =>
    intro held held2 h
    simp [held_after] at h
    subst h
    simp [count_acquired, count_released]
  | cons c rest ih =>
    intro held held2 h
    cases c with
    | ci_simple_file_named_new dir m result =>
      cases result with
      | none =>
        have := ih held held2 (by simpa [held_after] using h)
        simpa [count_acquired, count_released] using this
      | some f =>
        have := ih (f.addr :: held) held2 (by simpa [held_after] using h)
        simp [count_acquired, count_released] at this ⊢
        omega
    | ci_simple_file_open path result =>
      cases result with
      | none =>
        have := ih held held2 (by simpa [held_after] using h)
        simpa [count_acquired, count_released] using this
      | some f =>
        have := ih (f.addr :: held) held2 (by simpa [held_after] using h)
        simp [count_acquired, count_released] at this ⊢
        omega
    | ci_simple_file_release f =>
      by_cases hm : f.addr ∈ held
      · have := ih (held.erase f.addr) held2 (by simpa [held_after, hm] using h)
        have hlen : (held.erase f.addr).length = held.length - 1 := List.length_erase_of_mem hm
        have hpos : 0 < held.length := List.length_pos_of_mem hm
        simp [count_acquired, count_released] at this ⊢
        omega
      · simp [held_after, hm] at h
    | ci_simple_file_write file buf len iseof result =>
      have := ih held held2 (by simpa [held_after] using h)
      simpa [count_acquired, count_released] using this
    | ci_simple_file_read file len result =>
      have := ih held held2 (by simpa [held_after] using h)
      simpa [count_acquired, count_released] using this
    | system command result =>
      have := ih held held2 (by simpa [held_after] using h)
      simpa [count_acquired, count_released] using this
    | ci_req_unlock_data =>
      have := ih held held2 (by simpa [held_after] using h)
      simpa [count_acquired, count_released] using this
    | ci_http_response_remove_header name =>
      have := ih held held2 (by simpa [held_after] using h)
      simpa [count_acquired, count_released] using this
    | ci_http_response_add_header line =>
      have := ih held held2 (by simpa [held_after] using h)
      simpa [count_acquired, count_released] using this

/-- With a data pointer, the write block of `stegowiper_io` goes through. -/
theorem io_write_step_returns (w : WriteOutcome) (rbuf : Option (List Nat)) (rlen : Option Int)
    (iseof : Int) (d : stegowiper_req_data) :
    ∃ ret rlen1 d1 calls1,
      io_write_step w rbuf rlen iseof (some d) = some (ret, rlen1, some d1, calls1) := by
  cases rlen with
  | none => exact ⟨_, _, _, _, rfl⟩
  | some n =>
    cases rbuf with
    | none => exact ⟨_, _, _, _, rfl⟩
    | some bytes =>
      cases hf : d.file with
      | none => exact ⟨CI_OK, some n, d, [], by simp [io_write_step, hf]⟩
      | some f =>
        exact ⟨_, _, _, _, by simp only [io_write_step, hf]; rfl⟩

/-- With a data pointer and a `wlen` pointer, the read block of `stegowiper_io` goes through
and leaves `wlen` non-NULL. -/
theorem io_read_step_returns (r : Int) (wbuf : Bool) (n : Int) (d : stegowiper_req_data) :
    ∃ m calls2, io_read_step r wbuf (some n) (some d) = some (some m, calls2) := by
  cases wbuf with
  | false => exact ⟨n, [], rfl⟩
  | true =>
    cases hf : d.file with
    | none => exact ⟨n, [], by simp [io_read_step, hf]⟩
    | some f => exact ⟨r, _, by simp only [io_read_step, hf]; rfl⟩

/-- With a data pointer and a `wlen` pointer, the end-of-output test goes through. -/
theorem io_eof_step_returns (n : Int) (d : stegowiper_req_data) :
    ∃ m, io_eof_step (some n) (some d) = some m := by
  by_cases hn : n = 0
  · by_cases he : d.eof = 1
    · exact ⟨CI_EOF, by simp [io_eof_step, hn, he]⟩
    · exact ⟨n, by simp [io_eof_step, hn, he]⟩
  · exact ⟨n, by simp [io_eof_step, hn]⟩

/-- With a data pointer and a `wlen` pointer, `stegowiper_io` returns and keeps the data
pointer non-NULL. -/
theorem io_returns (w : WriteOutcome) (r : Int) (wbuf : Bool) (n : Int)
    (rbuf : Option (List Nat)) (rlen : Option Int) (iseof : Int) (req : ci_request_t)
    (hd : req.service_data.isSome = true) :
    ∃ res, stegowiper_io w r wbuf (some n) rbuf rlen iseof req = some res ∧
      res.req.service_data.isSome = true := by
  cases hdata : req.service_data with
  | none => simp [hdata] at hd
  | some d =>
    obtain ⟨ret, rlen1, d1, calls1, h1⟩ := io_write_step_returns w rbuf rlen iseof d
    obtain ⟨m, calls2, h2⟩ := io_read_step_returns r wbuf n d1
    obtain ⟨m2, h3⟩ := io_eof_step_returns m d1
    refine ⟨{ ret := ret, wlen := m2, rlen := rlen1,
              req := { req with service_data := some d1 }, calls := calls1 ++ calls2 }, ?_, rfl⟩
    simp only [stegowiper_io, hdata, h1, h2, h3]

/-- Every callback with a data pointer (and, for `stegowiper_io`, a `wlen` pointer) returns and
keeps the data pointer non-NULL. -/
theorem run_step_returns (s : Step) (x : Exchange) (hs : s.wlen_given = true)
    (hd : x.req.service_data.isSome = true) :
    ∃ y, run_step s x = some y ∧ y.req.service_data.isSome = true := by
  cases s with
  | preview w preview_data preview_data_len =>
    refine ⟨_, rfl, ?_⟩
    cases hdata : x.req.service_data with
    | none => simp [hdata] at hd
    | some d =>
      cases hb : x.req.hasbody <;> by_cases hi : preview_is_image x.req = true <;>
        by_cases hl : preview_data_len = 0 <;> by_cases he : x.req.eof_received = 0 <;>
        simp [stegowiper_check_preview_handler, hdata, hb, hi, hl, he, ci_req_unlock_data]
  | io w r wbuf wlen rbuf rlen iseof =>
    cases wlen with
    | none => simp [Step.wlen_given] at hs
    | some n =>
      obtain ⟨res, hres, hsome⟩ := io_returns w r wbuf n rbuf rlen iseof x.req hd
      exact ⟨{ req := res.req, trace := x.trace ++ res.calls },
        by simp only [run_step, hres], hsome⟩
  | end_of_data garbage err opened =>
    refine ⟨_, rfl, ?_⟩
    cases hdata : x.req.service_data with
    | none => simp [hdata] at hd
    | some d =>
      cases hf : d.file with
      | none => simp [stegowiper_end_of_data_handler, hdata, hf]
      | some f =>
        cases opened with
        | none => simp [stegowiper_end_of_data_handler, hdata, hf]
        | some g =>
          by_cases h : f.endpos = g.endpos <;>
            simp [stegowiper_end_of_data_handler, hdata, hf, h, ci_req_unlock_data,
              ci_http_response_add_header, ci_http_response_remove_header]
  | host h => exact ⟨_, rfl, hd⟩

/-- The same along any sequence of callbacks. -/
theorem run_steps_returns (steps : List Step) : ∀ (x : Exchange),
    (∀ s ∈ steps, s.wlen_given = true) → x.req.service_data.isSome = true →
    ∃ y, run_steps steps x = some y := by
  induction steps with
  | nil => intro x _ _; exact ⟨x, rfl⟩
  | cons s rest ih =>
    intro x hall hd
    obtain ⟨z, hz, hzd⟩ := run_step_returns s x (hall s (by simp)) hd
    obtain ⟨y, hy⟩ := ih z (fun t ht => hall t (by simp [ht])) hzd
    exact ⟨y, by simp only [run_steps, hz, hy]⟩

/-- C9: in every exchange made of `stegowiper_init_request_data`, any sequence of preview,
`stegowiper_io` and end-of-data callbacks (succeeding or failing), and finally
`stegowiper_release_request_data`, every store handle obtained is released exactly once:
replaying the call trace, no release ever hits a handle that is not held, no handle is
held at the end, and there are as many releases as handles obtained.  The exchange runs
to its end whenever the data was allocated and every `stegowiper_io` tick has a `wlen`
pointer. -/
theorem C9_handles_released_exactly_once (malloc_ok : Bool) (created : Option ci_simple_file_t)
    (req : ci_request_t) (steps : List Step) :
    (malloc_ok = true → (∀ s ∈ steps, s.wlen_given = true) →
      ∃ trace, run_exchange malloc_ok created req steps = some trace) ∧
    (∀ trace, run_exchange malloc_ok created req steps = some trace →
      held_after [] trace = some [] ∧ count_released trace = count_acquired trace) := by
  constructor
  · intro hm hall
    subst hm
    have hd : ({ req := { req with
                  service_data := (stegowiper_init_request_data true created req).1 },
                 trace := (stegowiper_init_request_data true created req).2 } :
        Exchange).req.service_data.isSome = true := by
      cases hb : req.hasbody <;> simp [stegowiper_init_request_data, hb]
    obtain ⟨y, hy⟩ := run_steps_returns steps _ hall hd
    exact ⟨y.trace ++ stegowiper_release_request_data y.req.service_data,
      by simp only [run_exchange, hy]⟩
  · intro trace h
    unfold run_exchange at h
    cases hrun : run_steps steps
        { req := { req with
                   service_data := (stegowiper_init_request_data malloc_ok created req).1 },
          trace := (stegowiper_init_request_data malloc_ok created req).2 } with
    | none => simp [hrun] at h
    | some y =>
      simp [hrun] at h
      subst h
      have hinv := run_steps_held steps _ y hrun (init_held malloc_ok created req)
      have hfin : held_after [] (y.trace ++ stegowiper_release_request_data y.req.service_data) =
          some [] := by
        rw [held_after_append, hinv]
        exact release_held y.req.service_data
      refine ⟨hfin, ?_⟩
      have := held_after_count _ _ _ hfin
      simpa using this.symm

/-- Witness for C9: the sample exchange (preview, body, transform, output) obtains two handles
and releases each once. -/
theorem C9_handles_released_exactly_once_witness :
    (∃ trace, run_exchange true (some sample_new_store)
        { sample_preview_request with service_data := none } sample_steps = some trace ∧
      held_after [] trace = some [] ∧ count_released trace = count_acquired trace) ∧
    (run_exchange true (some sample_new_store)
        { sample_preview_request with service_data := none } sample_steps).map count_acquired =
      some 2 :=
  ⟨((C9_handles_released_exactly_once true (some sample_new_store)
        { sample_preview_request with service_data := none } sample_steps).1 rfl
        (by decide)).elim
      (fun trace h => ⟨trace, h,
        (C9_handles_released_exactly_once true (some sample_new_store)
          { sample_preview_request with service_data := none } sample_steps).2 trace h⟩),
    by decide⟩

end StegoWiper
